import Mathlib

/-!
Verification of the Payana ride-booking backend (src/main.py, src/schemas.py).

The Python code is shallowly embedded: MongoDB collections become association
lists from string ids to documents, Python floats become rationals, HTTP error
responses become an `Err` inductive carried in `Except`, and `datetime.utcnow()`
becomes explicit `now` / `nowHour` parameters.  Each endpoint handler that the
claims touch (`update_ride`, `request_ride`, `update_driver_location`,
`nearby_drivers`, `estimate_fare`, `surge_multiplier`) is translated
branch-for-branch from the source.
-/

namespace Payana

/-- schemas.GeoPoint: a latitude/longitude pair (floats modelled as rationals). -/
structure GeoPoint where
  lat : ℚ
  lng : ℚ
deriving DecidableEq, Repr

/-- schemas.Vehicle. -/
structure Vehicle where
  make : String
  model : String
  plate : String
  color : Option String
deriving DecidableEq, Repr

/-- A stored rider document (collection "rider").  `api_key` is `none` when the
document carries no api_key value; `doc.get("api_key")` then yields Python
`None`, which is what the `Option` models. -/
structure RiderDoc where
  name : String
  phone : String
  rating : Option ℚ
  api_key : Option String
deriving DecidableEq, Repr

/-- A stored driver document (collection "driver"). -/
structure DriverDoc where
  name : String
  phone : String
  vehicle : Vehicle
  location : Option GeoPoint
  is_available : Bool
  rating : Option ℚ
  api_key : Option String
  updated_at : Option Nat
deriving DecidableEq, Repr

/-- A stored ride document (collection "ride").  `updated_at` is absent at
creation (schemas.Ride has no such field) and set by `update_ride`. -/
structure RideDoc where
  rider_id : String
  driver_id : Option String
  pickup : GeoPoint
  dropoff : GeoPoint
  distance_km : Option ℚ
  duration_min : Option ℚ
  fare_estimate : Option ℚ
  surge_multiplier : Option ℚ
  status : String
  updated_at : Option Nat
deriving DecidableEq, Repr

/-- The MongoDB database: one association list per collection, keyed by the
stringified ObjectId. -/
structure Store where
  riders : List (String × RiderDoc)
  drivers : List (String × DriverDoc)
  rides : List (String × RideDoc)
deriving DecidableEq, Repr

/-- HTTP error responses raised by the handlers.  `unauthorized` is a 401 with
its detail string; `notFound` is the 404 (or the 400 "Invalid id" for a
malformed ObjectId, which equally aborts the lookup) raised by
`get_doc_by_id` for the named collection. -/
inductive Err where
  | unauthorized (detail : String)
  | notFound (collection : String)
deriving DecidableEq, Repr

/-- MongoDB `update_one` key replacement:
replaces the first binding of `k` (update_one does not upsert, so an absent
key writes nothing). -/
def setAssoc {α : Type} : List (String × α) → String → α → List (String × α)
  | [], _, _ => []
  | (k, v) :: rest, key, newv =>
    if k = key then (key, newv) :: rest else (k, v) :: setAssoc rest key newv

/- Pricing and surge logic -/

/-- main.py `surge_multiplier`: `nowHour` stands for `datetime.utcnow().hour`,
used when no explicit hour is supplied. -/
def surge_multiplier (nowHour : ℤ) (hour : Option ℤ) : ℚ :=
  let h := hour.getD nowHour
  if (7 ≤ h ∧ h ≤ 9) ∨ (17 ≤ h ∧ h ≤ 20) then 3/2
  else if 22 ≤ h ∨ h < 6 then 6/5
  else 1

/-- Python `round(x, 2)`: round to 2 decimal places, ties to even
(round half to even, as Python does), embedded on rationals. -/
def pyRound2 (q : ℚ) : ℚ :=
  let s := q * 100
  let n : ℤ :=
    if s - ⌊s⌋ < 1/2 then ⌊s⌋
    else if 1/2 < s - ⌊s⌋ then ⌊s⌋ + 1
    else if ⌊s⌋ % 2 = 0 then ⌊s⌋ else ⌊s⌋ + 1
  (n : ℚ) / 100

/-- main.py `estimate_fare`: base 2.0, 1.2 per km (clamped at 0), 0.2 per min
when a duration is supplied, times the surge multiplier, rounded to 2 dp.
Returns (fare, multiplier). -/
def estimate_fare (nowHour : ℤ) (distance_km : ℚ) (duration_min : Option ℚ)
    (hour : Option ℤ) : ℚ × ℚ :=
  let base : ℚ := 2
  let per_km : ℚ := 6/5
  let per_min : ℚ := 1/5
  let mult := surge_multiplier nowHour hour
  let fare := base + per_km * max distance_km 0
  let fare :=
    match duration_min with
    | some m => fare + per_min * max m 0
    | none => fare
  (pyRound2 (fare * mult), mult)

/- Drivers -/

/-- main.py `update_driver_location` (PATCH /drivers/\x7bdriver_id\x7d/location):
look the driver up, require its api_key to equal the X-API-Key header, then
$set location and updated_at.  `updated` reports `modified_count > 0`. -/
def update_driver_location (st : Store) (driver_id : String) (loc : GeoPoint)
    (x_api_key : Option String) (now : Nat) : Store × Except Err Bool :=
  match st.drivers.lookup driver_id with
  | none => (st, .error (.notFound ("driver")))
  | some doc =>
    if doc.api_key = x_api_key then
      let newDoc := { doc with location := some loc, updated_at := some now }
      ({ st with drivers := setAssoc st.drivers driver_id newDoc },
        .ok (decide (newDoc ≠ doc)))
    else (st, .error (.unauthorized ("Invalid API key")))

/-- Kilometres per degree of latitude used by the nearby-drivers bounding box. -/
def kmPerDegLat : ℚ := 110574/1000

/-- Kilometres per degree of longitude used by the nearby-drivers bounding box. -/
def kmPerDegLng : ℚ := 111320/1000

/-- The MongoDB query of `nearby_drivers`: location.lat and location.lng inside
the bounding box and is_available true.  A document without a location field
matches no range condition, hence `false` on `none`. -/
def inNearbyQuery (lat lng radius_km : ℚ) (d : DriverDoc) : Bool :=
  let dlat := radius_km / kmPerDegLat
  let dlng := radius_km / kmPerDegLng
  match d.location with
  | some p =>
    decide (lat - dlat ≤ p.lat) && decide (p.lat ≤ lat + dlat) &&
    decide (lng - dlng ≤ p.lng) && decide (p.lng ≤ lng + dlng) && d.is_available
  | none => false

/-- main.py `nearby_drivers` (GET /drivers/nearby): bounding-box filter over the
driver collection, `.limit(50)`. -/
def nearby_drivers (st : Store) (lat lng : ℚ) (radius_km : ℚ) : List DriverDoc :=
  ((st.drivers.map Prod.snd).filter (inNearbyQuery lat lng radius_km)).take 50

/- Rides -/

/-- The incoming ride payload of POST /rides, before pydantic defaulting: a
`none` status means the field was omitted and defaults to "requested". -/
structure RideInput where
  rider_id : String
  driver_id : Option String
  pickup : GeoPoint
  dropoff : GeoPoint
  distance_km : Option ℚ
  duration_min : Option ℚ
  fare_estimate : Option ℚ
  surge_multiplier : Option ℚ
  status : Option String
deriving DecidableEq, Repr

/-- main.py `request_ride` (POST /rides): verify the api_key of the rider; when
fare_estimate is absent and distance_km present, fill fare and surge from
`estimate_fare` at the current hour (no hour override); insert the ride.
`newId` is the ObjectId minted by the insert. -/
def request_ride (st : Store) (inp : RideInput) (x_api_key : Option String)
    (nowHour : ℤ) (newId : String) : Store × Except Err String :=
  match st.riders.lookup inp.rider_id with
  | none => (st, .error (.notFound ("rider")))
  | some rider_doc =>
    if rider_doc.api_key = x_api_key then
      let fm :=
        match inp.fare_estimate, inp.distance_km with
        | none, some d =>
          let e := estimate_fare nowHour d inp.duration_min none
          (some e.1, some e.2)
        | fe, _ => (fe, inp.surge_multiplier)
      let doc : RideDoc :=
        { rider_id := inp.rider_id
          driver_id := inp.driver_id
          pickup := inp.pickup
          dropoff := inp.dropoff
          distance_km := inp.distance_km
          duration_min := inp.duration_min
          fare_estimate := fm.1
          surge_multiplier := fm.2
          status := inp.status.getD ("requested")
          updated_at := none }
      ({ st with rides := (newId, doc) :: st.rides }, .ok newId)
    else (st, .error (.unauthorized ("Invalid API key")))

/-- The PATCH /rides/\x7bride_id\x7d payload (main.py RideUpdate). -/
structure RideUpdate where
  status : Option String
  driver_id : Option String
deriving DecidableEq, Repr

/-- Python truthiness of an optional string: `if payload.driver_id:` is true
exactly for a present, non-empty string. -/
def isTruthy (o : Option String) : Bool :=
  match o with
  | some s => s != ""
  | none => false

/-- The rider-authorization arm of `update_ride` (no driver on the ride):
"no driver yet -> allow rider to update/cancel". -/
def authorizeRider (st : Store) (ride_doc : RideDoc) (x_api_key : Option String) :
    Except Err Unit :=
  match st.riders.lookup ride_doc.rider_id with
  | none => .error (.notFound ("rider"))
  | some rider_doc =>
    if rider_doc.api_key = x_api_key then .ok ()
    else .error (.unauthorized ("Rider API key required"))

/-- The no-assignment arm of `update_ride`: when the ride already carries a
(truthy) driver_id, a cancellation is allowed with the key of the rider or of that
driver, any other status change only with the key of that driver; with no
driver on the ride, fall through to `authorizeRider`. -/
def authorizeNoAssign (st : Store) (ride_doc : RideDoc) (payload : RideUpdate)
    (x_api_key : Option String) : Except Err Unit :=
  match ride_doc.driver_id with
  | some d =>
    if d = "" then authorizeRider st ride_doc x_api_key
    else
      match st.drivers.lookup d with
      | none => .error (.notFound ("driver"))
      | some driver_doc =>
        if payload.status = some ("cancelled") then
          match st.riders.lookup ride_doc.rider_id with
          | none => .error (.notFound ("rider"))
          | some rider_doc =>
            if rider_doc.api_key ≠ x_api_key ∧ driver_doc.api_key ≠ x_api_key then
              .error (.unauthorized ("Invalid API key"))
            else .ok ()
        else
          if driver_doc.api_key = x_api_key then .ok ()
          else .error (.unauthorized ("Driver API key required"))
  | none => authorizeRider st ride_doc x_api_key

/-- The authorization decision tree of `update_ride`.  Returns the status entry
of the `$set` document: the assignment arm forces it to the requested status
defaulting to "assigned", the other arms pass the status of the payload through. -/
def authorizeUpdate (st : Store) (ride_doc : RideDoc) (payload : RideUpdate)
    (x_api_key : Option String) : Except Err (Option String) :=
  match payload.driver_id with
  | some did =>
    if did = "" then
      (authorizeNoAssign st ride_doc payload x_api_key).map fun _ => payload.status
    else
      match st.drivers.lookup did with
      | none => .error (.notFound ("driver"))
      | some driver_doc =>
        if driver_doc.api_key = x_api_key then
          .ok (some (payload.status.getD ("assigned")))
        else .error (.unauthorized ("Invalid API key for driver"))
  | none =>
    (authorizeNoAssign st ride_doc payload x_api_key).map fun _ => payload.status

/-- The `$set` write of `update_ride`: the update dict holds the status entry
decided by authorization, the driver_id of the payload when present (Python keeps
a present-but-empty driver_id in the dict), and a fresh updated_at. -/
def applyRideSet (r : RideDoc) (statusEntry : Option String)
    (driverEntry : Option String) (now : Nat) : RideDoc :=
  { r with
    status := statusEntry.getD r.status
    driver_id :=
      match driverEntry with
      | some d => some d
      | none => r.driver_id
    updated_at := some now }

/-- main.py `update_ride` (PATCH /rides/\x7bride_id\x7d): empty payloads are a
no-op before any lookup; otherwise the ride is read, the decision tree of
`authorizeUpdate` runs, and only then is the `$set` written.  `updated`
reports `modified_count > 0`, i.e. whether the document changed. -/
def update_ride (st : Store) (ride_id : String) (payload : RideUpdate)
    (x_api_key : Option String) (now : Nat) : Store × Except Err Bool :=
  if payload.status = none ∧ payload.driver_id = none then (st, .ok false)
  else
    match st.rides.lookup ride_id with
    | none => (st, .error (.notFound ("ride")))
    | some ride_doc =>
      match authorizeUpdate st ride_doc payload x_api_key with
      | .error e => (st, .error e)
      | .ok statusEntry =>
        let newDoc := applyRideSet ride_doc statusEntry payload.driver_id now
        ({ st with rides := setAssoc st.rides ride_id newDoc },
          .ok (decide (newDoc ≠ ride_doc)))

/- Spec-side definitions (for refinement comparison) -/

/-- The surge multiplier exactly as the spec words it: 1.5 during hours 7 to 9
and 17 to 20 inclusive, 1.2 during hours 22 to 23 or 0 to 5 inclusive, 1.0
otherwise.  To be compared with `surge_multiplier` from the source. -/
def specSurgeMultiplier (h : ℤ) : ℚ :=
  if (7 ≤ h ∧ h ≤ 9) ∨ (17 ≤ h ∧ h ≤ 20) then 3/2
  else if (22 ≤ h ∧ h ≤ 23) ∨ (0 ≤ h ∧ h ≤ 5) then 6/5
  else 1

/- Concrete documents and stores used by counterexamples and witnesses. -/

def cVehicle : Vehicle := { make := "m", model := "x", plate := "p1", color := none }

def cRider : RiderDoc :=
  { name := "Asha", phone := "1", rating := none, api_key := some ("rk") }

def cDriver : DriverDoc :=
  { name := "Dev", phone := "2", vehicle := cVehicle,
    location := some { lat := 1, lng := 1 }, is_available := true,
    rating := none, api_key := some ("dk"), updated_at := none }

def cDriverOld : DriverDoc :=
  { name := "Old", phone := "3", vehicle := cVehicle,
    location := none, is_available := true,
    rating := none, api_key := some ("d0k"), updated_at := none }

/-- A ride of rider r1 currently assigned to driver d0. -/
def cRideAssigned : RideDoc :=
  { rider_id := "r1", driver_id := some ("d0"),
    pickup := { lat := 0, lng := 0 }, dropoff := { lat := 1, lng := 1 },
    distance_km := none, duration_min := none,
    fare_estimate := none, surge_multiplier := none,
    status := "assigned", updated_at := none }

/-- Store with one rider (key "rk"), two drivers d1 (key "dk") and d0
(key "d0k"), and ride "R" assigned to d0. -/
def stA : Store :=
  { riders := [("r1", cRider)],
    drivers := [("d1", cDriver), ("d0", cDriverOld)],
    rides := [("R", cRideAssigned)] }

/-- Ride-creation payload of rider r1 with no explicit status and no distance
(so no fare is auto-computed). -/
def cRideInput : RideInput :=
  { rider_id := "r1", driver_id := none,
    pickup := { lat := 0, lng := 0 }, dropoff := { lat := 1, lng := 1 },
    distance_km := none, duration_min := none,
    fare_estimate := none, surge_multiplier := none, status := none }

/-- Ride-creation payload of rider r1 with a distance and no fare, so the
estimator fills fare and surge. -/
def cRideInputDist : RideInput :=
  { rider_id := "r1", driver_id := none,
    pickup := { lat := 0, lng := 0 }, dropoff := { lat := 1, lng := 1 },
    distance_km := some 3, duration_min := none,
    fare_estimate := none, surge_multiplier := none, status := none }

/-- Store holding only rider r1, used to replay a full ride lifecycle. -/
def st_c4 : Store := { riders := [("r1", cRider)], drivers := [], rides := [] }

/-- State after rider r1 creates ride "R" (status defaults to "requested"). -/
def st_c4a : Store := (request_ride st_c4 cRideInput (some ("rk")) 12 ("R")).1

/-- State after rider r1 cancels ride "R" (a legal requested-to-cancelled
transition). -/
def st_c4b : Store :=
  (update_ride st_c4a ("R") { status := some ("cancelled"), driver_id := none }
    (some ("rk")) 1).1

/-- A rider document that carries no api_key value. -/
def nkRider : RiderDoc := { name := "n", phone := "1", rating := none, api_key := none }

/-- A driver document that carries no api_key value. -/
def nkDriver : DriverDoc :=
  { name := "d", phone := "2", vehicle := cVehicle,
    location := some { lat := 0, lng := 0 }, is_available := true,
    rating := none, api_key := none, updated_at := none }

/-- A ride of the keyless rider assigned to the keyless driver. -/
def nkRideAssigned : RideDoc :=
  { rider_id := "r1", driver_id := some ("d1"),
    pickup := { lat := 0, lng := 0 }, dropoff := { lat := 1, lng := 1 },
    distance_km := none, duration_min := none,
    fare_estimate := none, surge_multiplier := none,
    status := "assigned", updated_at := none }

/-- A ride of the keyless rider with no driver yet. -/
def nkRideNoDriver : RideDoc :=
  { rider_id := "r1", driver_id := none,
    pickup := { lat := 0, lng := 0 }, dropoff := { lat := 1, lng := 1 },
    distance_km := none, duration_min := none,
    fare_estimate := none, surge_multiplier := none,
    status := "requested", updated_at := none }

/-- Store in which every actor document lacks an api_key value. -/
def stNoKey : Store :=
  { riders := [("r1", nkRider)],
    drivers := [("d1", nkDriver)],
    rides := [("R1", nkRideAssigned), ("R0", nkRideNoDriver)] }

/-- Ride-creation payload of the keyless rider. -/
def nkRideInput : RideInput :=
  { rider_id := "r1", driver_id := none,
    pickup := { lat := 0, lng := 0 }, dropoff := { lat := 1, lng := 1 },
    distance_km := some 3, duration_min := none,
    fare_estimate := none, surge_multiplier := none, status := none }

/- Helper lemmas -/

/-- The function `setAssoc` replaces the binding of a key that is present. -/
theorem lookup_setAssoc_self {α : Type} (l : List (String × α)) (k : String) (v : α)
    (h : (l.lookup k).isSome) : (setAssoc l k v).lookup k = some v := by
  induction l with
  | nil => simp [List.lookup] at h
  | cons p rest ih =>
    obtain ⟨a, b⟩ := p
    by_cases hk : a = k
    · subst hk
      simp [setAssoc, List.lookup]
    · have hba : (k == a) = false := beq_false_of_ne (Ne.symm hk)
      rw [List.lookup, hba] at h
      simp only [setAssoc, if_neg hk, List.lookup, hba]
      exact ih h

/-- On success, the authorization decision tree hands back the status entry of
the write: the status of the payload defaulting to "assigned" on a (truthy)
assignment, the status of the payload unchanged otherwise. -/
theorem authorizeUpdate_ok_status (st : Store) (rd : RideDoc) (payload : RideUpdate)
    (x : Option String) (se : Option String)
    (h : authorizeUpdate st rd payload x = .ok se) :
    se = if isTruthy payload.driver_id then some (payload.status.getD ("assigned"))
         else payload.status := by
  rcases payload with ⟨ps, pd⟩
  rcases pd with _ | did
  · simp only [authorizeUpdate] at h
    rcases hna : authorizeNoAssign st rd ⟨ps, none⟩ x with e | u
    · rw [hna] at h
      simp [Except.map] at h
    · rw [hna] at h
      simp [Except.map] at h
      simp [isTruthy, h]
  · simp only [authorizeUpdate] at h
    by_cases hne : did = ""
    · rw [if_pos hne] at h
      rcases hna : authorizeNoAssign st rd ⟨ps, some did⟩ x with e | u
      · rw [hna] at h
        simp [Except.map] at h
      · rw [hna] at h
        simp [Except.map] at h
        simp [isTruthy, hne, h]
    · rw [if_neg hne] at h
      rcases hl : st.drivers.lookup did with _ | drv
      · rw [hl] at h
        simp at h
      · simp only [hl] at h
        by_cases hk : drv.api_key = x
        · rw [if_pos hk] at h
          simp at h
          simp [isTruthy, hne, h]
        · rw [if_neg hk] at h
          simp at h

/- Claim theorems -/

/-- Claim C9: an update payload that sets neither status nor driver_id is a
no-op reporting updated=false; the store is returned untouched and, since this
holds for every store (in particular ones where the ride, rider and drivers do
not even exist and every credential mismatches), no credential check, identity
lookup or write takes place. -/
theorem C9_noop_update (st : Store) (ride_id : String) (x_api_key : Option String)
    (now : Nat) :
    update_ride st ride_id { status := none, driver_id := none } x_api_key now =
      (st, .ok false) := rfl

/-- Claim C5: every failing ride update (Unauthorized, or a NotFound/invalid
reference for the ride, rider or driver) aborts before the write: the store
component of the result is exactly the input store. -/
theorem C5_failure_before_write (st : Store) (ride_id : String) (payload : RideUpdate)
    (x_api_key : Option String) (now : Nat) (e : Err)
    (h : (update_ride st ride_id payload x_api_key now).2 = .error e) :
    (update_ride st ride_id payload x_api_key now).1 = st := by
  by_cases hguard : payload.status = none ∧ payload.driver_id = none
  · simp [update_ride, hguard]
  · rcases hl : st.rides.lookup ride_id with _ | rd
    · simp [update_ride, hguard, hl]
    · rcases ha : authorizeUpdate st rd payload x_api_key with e' | se
      · simp [update_ride, hguard, hl, ha]
      · exfalso
        simp [update_ride, hguard, hl, ha] at h

/-- C5 witness: a cancellation attempt on stA with the key of a third party fails
Unauthorized and leaves the store unchanged. -/
theorem C5_witness :
    (update_ride stA ("R") { status := some ("cancelled"), driver_id := none }
        (some ("zz")) 7).1 = stA :=
  C5_failure_before_write stA ("R")
    { status := some ("cancelled"), driver_id := none } (some ("zz")) 7
    (.unauthorized ("Invalid API key")) rfl

/-- The surge multiplier of the source agrees with the wording of the spec on every hour
of the day. -/
theorem surge_eq_spec (nowHour h : ℤ) (h0 : 0 ≤ h) (h23 : h ≤ 23) :
    surge_multiplier nowHour (some h) = specSurgeMultiplier h := by
  unfold surge_multiplier specSurgeMultiplier
  simp only [Option.getD_some]
  split_ifs <;> first | rfl | omega

/-- Claim C6: for every distance, optional duration and hour in [0,23], the
estimator returns the multiplier 1.5 on hours 7-9 and 17-20, 1.2 on hours
22-23 and 0-5, 1.0 otherwise, and the fare
round((2.0 + 1.2*max(d,0) + 0.2*max(dur,0) if supplied) * multiplier, 2);
in particular estimate(10, 20, hour 8) = (27.0, 1.5). -/
theorem C6_estimate_fare (nowHour : ℤ) (d : ℚ) (dur : Option ℚ) (h : ℤ)
    (h0 : 0 ≤ h) (h23 : h ≤ 23) :
    (estimate_fare nowHour d dur (some h) =
      (pyRound2 ((2 + (6/5) * max d 0 +
          (match dur with | some m => (1/5) * max m 0 | none => 0)) *
        specSurgeMultiplier h),
       specSurgeMultiplier h))
    ∧ estimate_fare 12 10 (some 20) (some 8) = (27, 3/2) := by
  constructor
  · unfold estimate_fare
    rw [surge_eq_spec nowHour h h0 h23]
    cases dur <;> simp [add_zero]
  · have hs : surge_multiplier 12 (some 8) = 3/2 := by norm_num [surge_multiplier]
    unfold estimate_fare pyRound2
    rw [hs]
    norm_num [Int.floor_intCast]

/-- C6 witness: the concrete instance of the claim at distance 10, duration 20,
hour 8. -/
theorem C6_witness : estimate_fare 12 10 (some 20) (some 8) = (27, 3/2) :=
  (C6_estimate_fare 12 10 (some 20) 8 (by decide) (by decide)).2

/-- Claim C1: an update carrying a non-empty driver_id succeeds iff the
presented credential equals the stored credential of the proposed driver; on
success the status becomes the explicitly requested one, defaulting to
"assigned", and the driver_id of the payload overwrites whatever driver_id the
ride already had; on a credential mismatch the result is Unauthorized with
the store untouched. -/
theorem C1_assignment (st : Store) (ride_id did : String) (payload : RideUpdate)
    (x_api_key : Option String) (now : Nat) (rd : RideDoc) (drv : DriverDoc)
    (hpd : payload.driver_id = some did) (hne : did ≠ "")
    (hrd : st.rides.lookup ride_id = some rd)
    (hdrv : st.drivers.lookup did = some drv) :
    (x_api_key = drv.api_key →
      update_ride st ride_id payload x_api_key now =
        ({ st with rides := setAssoc st.rides ride_id ({ rd with status := payload.status.getD ("assigned"), driver_id := some did, updated_at := some now }) },
          .ok (decide ({ rd with status := payload.status.getD ("assigned"), driver_id := some did, updated_at := some now } ≠ rd))))
    ∧ (x_api_key ≠ drv.api_key →
      update_ride st ride_id payload x_api_key now =
        (st, .error (.unauthorized ("Invalid API key for driver")))) := by
  have hguard : ¬(payload.status = none ∧ payload.driver_id = none) := by
    simp [hpd]
  constructor
  · intro hx
    subst hx
    simp [update_ride, hguard, hrd, authorizeUpdate, hpd, hne, hdrv, applyRideSet]
  · intro hx
    simp [update_ride, hguard, hrd, authorizeUpdate, hpd, hne, hdrv, Ne.symm hx]

/-- C1 witness: on stA, assigning driver d1 with the key of d1 succeeds even though
ride "R" is currently assigned to d0, overwriting the driver and setting
status "assigned"; with a wrong key the same update is Unauthorized. -/
theorem C1_witness :
    (update_ride stA ("R") { status := none, driver_id := some ("d1") }
        (some ("dk")) 7 =
      ({ stA with rides := setAssoc stA.rides ("R") ({ cRideAssigned with status := "assigned", driver_id := some ("d1"), updated_at := some 7 }) },
        .ok true))
    ∧ update_ride stA ("R") { status := none, driver_id := some ("d1") }
        (some ("zz")) 7 =
      (stA, .error (.unauthorized ("Invalid API key for driver"))) := by
  constructor
  · exact ((C1_assignment stA ("R") ("d1")
      { status := none, driver_id := some ("d1") } (some ("dk")) 7
      cRideAssigned cDriver rfl (by decide) rfl rfl).1 rfl).trans rfl
  · exact (C1_assignment stA ("R") ("d1")
      { status := none, driver_id := some ("d1") } (some ("zz")) 7
      cRideAssigned cDriver rfl (by decide) rfl rfl).2 (by decide)

/-- Claim C2: on a ride that already has a (non-empty) driver_id, an update
with no driver_id in the payload requesting status "cancelled" succeeds iff
the presented credential equals the stored credential of the rider of the ride or of its current
driver; any other credential gets Unauthorized. -/
theorem C2_cancel (st : Store) (ride_id d : String) (payload : RideUpdate)
    (x_api_key : Option String) (now : Nat) (rd : RideDoc) (drv : DriverDoc)
    (rdr : RiderDoc)
    (hps : payload.status = some ("cancelled")) (hpd : payload.driver_id = none)
    (hrd : st.rides.lookup ride_id = some rd)
    (hd : rd.driver_id = some d) (hdne : d ≠ "")
    (hdrv : st.drivers.lookup d = some drv)
    (hrdr : st.riders.lookup rd.rider_id = some rdr) :
    ((x_api_key = rdr.api_key ∨ x_api_key = drv.api_key) →
      update_ride st ride_id payload x_api_key now =
        ({ st with rides := setAssoc st.rides ride_id ({ rd with status := "cancelled", updated_at := some now }) },
          .ok (decide ({ rd with status := "cancelled", updated_at := some now } ≠ rd))))
    ∧ ((x_api_key ≠ rdr.api_key ∧ x_api_key ≠ drv.api_key) →
      update_ride st ride_id payload x_api_key now =
        (st, .error (.unauthorized ("Invalid API key")))) := by
  have hguard : ¬(payload.status = none ∧ payload.driver_id = none) := by
    simp [hps]
  constructor
  · intro hx
    have hcond : ¬(rdr.api_key ≠ x_api_key ∧ drv.api_key ≠ x_api_key) := by
      rcases hx with hx | hx <;> subst hx <;> simp
    simp [update_ride, hguard, hrd, authorizeUpdate, hpd, authorizeNoAssign, hd,
      hdne, hdrv, hps, hrdr, hcond, Except.map, applyRideSet]
  · intro hx
    have hcond : rdr.api_key ≠ x_api_key ∧ drv.api_key ≠ x_api_key :=
      ⟨Ne.symm hx.1, Ne.symm hx.2⟩
    simp [update_ride, hguard, hrd, authorizeUpdate, hpd, authorizeNoAssign, hd,
      hdne, hdrv, hps, hrdr, hcond, Except.map]

/-- C2 witness: on stA (ride "R" assigned to d0), cancellation with the
key of the rider succeeds, with the key of the current driver succeeds, and
with the key of a third party is Unauthorized. -/
theorem C2_witness :
    (update_ride stA ("R") { status := some ("cancelled"), driver_id := none }
        (some ("rk")) 7 =
      ({ stA with rides := setAssoc stA.rides ("R") ({ cRideAssigned with status := "cancelled", updated_at := some 7 }) },
        .ok true))
    ∧ ((update_ride stA ("R") { status := some ("cancelled"), driver_id := none }
        (some ("d0k")) 7).2 = .ok true)
    ∧ update_ride stA ("R") { status := some ("cancelled"), driver_id := none }
        (some ("zz")) 7 =
      (stA, .error (.unauthorized ("Invalid API key"))) := by
  refine ⟨?_, ?_, ?_⟩
  · exact ((C2_cancel stA ("R") ("d0")
      { status := some ("cancelled"), driver_id := none } (some ("rk")) 7
      cRideAssigned cDriverOld cRider rfl rfl rfl rfl (by decide) rfl rfl).1
      (Or.inl rfl)).trans rfl
  · exact congrArg Prod.snd ((C2_cancel stA ("R") ("d0")
      { status := some ("cancelled"), driver_id := none } (some ("d0k")) 7
      cRideAssigned cDriverOld cRider rfl rfl rfl rfl (by decide) rfl rfl).1
      (Or.inr rfl)) |>.trans rfl
  · exact (C2_cancel stA ("R") ("d0")
      { status := some ("cancelled"), driver_id := none } (some ("zz")) 7
      cRideAssigned cDriverOld cRider rfl rfl rfl rfl (by decide) rfl rfl).2
      ⟨by decide, by decide⟩

/-- Claim C3: on a ride that already has a (non-empty) driver_id, an update
with no driver_id in the payload and a requested status other than
"cancelled" succeeds iff the presented credential equals the current
stored credential of the current driver; in particular the credential of the
rider alone (differing from that of the driver) is Unauthorized. -/
theorem C3_progress (st : Store) (ride_id d s : String) (payload : RideUpdate)
    (x_api_key : Option String) (now : Nat) (rd : RideDoc) (drv : DriverDoc)
    (hps : payload.status = some s) (hs : s ≠ "cancelled")
    (hpd : payload.driver_id = none)
    (hrd : st.rides.lookup ride_id = some rd)
    (hd : rd.driver_id = some d) (hdne : d ≠ "")
    (hdrv : st.drivers.lookup d = some drv) :
    (x_api_key = drv.api_key →
      update_ride st ride_id payload x_api_key now =
        ({ st with rides := setAssoc st.rides ride_id ({ rd with status := s, updated_at := some now }) },
          .ok (decide ({ rd with status := s, updated_at := some now } ≠ rd))))
    ∧ (x_api_key ≠ drv.api_key →
      update_ride st ride_id payload x_api_key now =
        (st, .error (.unauthorized ("Driver API key required"))))
    ∧ (∀ rdr : RiderDoc, st.riders.lookup rd.rider_id = some rdr →
        rdr.api_key ≠ drv.api_key → x_api_key = rdr.api_key →
        update_ride st ride_id payload x_api_key now =
          (st, .error (.unauthorized ("Driver API key required")))) := by
  have hguard : ¬(payload.status = none ∧ payload.driver_id = none) := by
    simp [hps]
  have hfail : x_api_key ≠ drv.api_key →
      update_ride st ride_id payload x_api_key now =
        (st, .error (.unauthorized ("Driver API key required"))) := by
    intro hx
    simp [update_ride, hguard, hrd, authorizeUpdate, hpd, authorizeNoAssign, hd,
      hdne, hdrv, hps, hs, Except.map, Ne.symm hx]
  refine ⟨?_, hfail, ?_⟩
  · intro hx
    subst hx
    simp [update_ride, hguard, hrd, authorizeUpdate, hpd, authorizeNoAssign, hd,
      hdne, hdrv, hps, hs, Except.map, applyRideSet]
  · intro rdr _ hne2 hx
    exact hfail fun hcontra => hne2 (hx.symm.trans hcontra)

/-- C3 witness: on stA (ride "R" assigned to d0, rider key "rk", driver key
"d0k"), moving to "ongoing" succeeds with the key of the driver and is
Unauthorized with the key of the rider alone. -/
theorem C3_witness :
    (update_ride stA ("R") { status := some ("ongoing"), driver_id := none }
        (some ("d0k")) 7 =
      ({ stA with rides := setAssoc stA.rides ("R") ({ cRideAssigned with status := "ongoing", updated_at := some 7 }) },
        .ok true))
    ∧ update_ride stA ("R") { status := some ("ongoing"), driver_id := none }
        (some ("rk")) 7 =
      (stA, .error (.unauthorized ("Driver API key required"))) := by
  constructor
  · exact ((C3_progress stA ("R") ("d0") ("ongoing")
      { status := some ("ongoing"), driver_id := none } (some ("d0k")) 7
      cRideAssigned cDriverOld rfl (by decide) rfl rfl rfl (by decide) rfl).1
      rfl).trans rfl
  · exact (C3_progress stA ("R") ("d0") ("ongoing")
      { status := some ("ongoing"), driver_id := none } (some ("rk")) 7
      cRideAssigned cDriverOld rfl (by decide) rfl rfl rfl (by decide) rfl).2.2
      cRider rfl (by decide) rfl

/-- Claim C4 is false on the code: `update_ride` never consults the current
status of the ride, so even terminal states can be left.  Replaying a legal
lifecycle (rider r1 creates ride "R", which starts "requested", then cancels
it — a legal requested-to-cancelled transition), a further update of the now
cancelled ride to "ongoing" with the key of the rider succeeds and reports
updated=true, leaving the terminal state "cancelled". -/
theorem C4_counterexample :
    ((st_c4a.rides.lookup ("R")).map RideDoc.status = some ("requested"))
    ∧ ((st_c4b.rides.lookup ("R")).map RideDoc.status = some ("cancelled"))
    ∧ ((update_ride st_c4b ("R") { status := some ("ongoing"), driver_id := none } (some ("rk")) 2).2 = .ok true)
    ∧ (((update_ride st_c4b ("R") { status := some ("ongoing"), driver_id := none } (some ("rk")) 2).1.rides.lookup ("R")).map RideDoc.status = some ("ongoing")) :=
  ⟨rfl, rfl, rfl, rfl⟩

/-- Claim C4 amended: a successful ride update writes exactly the requested
status (defaulting to "assigned" on a truthy driver assignment, and keeping
the old status when none is requested), regardless of the current ride
status — the code enforces no state-machine restriction, so transitions out
of "completed" and "cancelled" are permitted whenever the update is
authorized. -/
theorem C4_amended (st : Store) (ride_id : String) (payload : RideUpdate)
    (x_api_key : Option String) (now : Nat) (rd : RideDoc) (b : Bool)
    (hrd : st.rides.lookup ride_id = some rd)
    (hok : (update_ride st ride_id payload x_api_key now).2 = .ok b) :
    ((update_ride st ride_id payload x_api_key now).1.rides.lookup ride_id).map RideDoc.status =
      some (if isTruthy payload.driver_id then payload.status.getD ("assigned")
            else payload.status.getD rd.status) := by
  by_cases hguard : payload.status = none ∧ payload.driver_id = none
  · obtain ⟨h1, h2⟩ := hguard
    simp [update_ride, h1, h2, hrd, isTruthy]
  · rcases ha : authorizeUpdate st rd payload x_api_key with e | se
    · exfalso
      simp [update_ride, hguard, hrd, ha] at hok
    · have hse := authorizeUpdate_ok_status st rd payload x_api_key se ha
      have hmem : (st.rides.lookup ride_id).isSome := by simp [hrd]
      simp [update_ride, hguard, hrd, ha, applyRideSet,
        lookup_setAssoc_self st.rides ride_id _ hmem]
      subst hse
      by_cases ht : isTruthy payload.driver_id <;> simp [ht]

/-- C4 (amended) witness: on stA, the assigned driver moves ride "R" directly
from "assigned" to "completed" (not a legal path of the claimed state
machine) and the stored status becomes exactly "completed". -/
theorem C4_witness :
    ((update_ride stA ("R") { status := some ("completed"), driver_id := none } (some ("d0k")) 9).1.rides.lookup ("R")).map RideDoc.status = some ("completed") := by
  have h := C4_amended stA ("R") { status := some ("completed"), driver_id := none }
    (some ("d0k")) 9 cRideAssigned true rfl rfl
  simpa [isTruthy] using h

/-- Claim C7: ride creation succeeds only when the presented credential equals
the stored credential of the rider named by rider_id (Unauthorized
otherwise); on success with fare_estimate absent and distance_km present the
stored ride carries fare and surge computed once by the estimator at the
current hour, and its status defaults to "requested" when none was given. -/
theorem C7_create (st : Store) (inp : RideInput) (x_api_key : Option String)
    (nowHour : ℤ) (newId : String) (rdr : RiderDoc)
    (hr : st.riders.lookup inp.rider_id = some rdr) :
    (x_api_key ≠ rdr.api_key →
      request_ride st inp x_api_key nowHour newId =
        (st, .error (.unauthorized ("Invalid API key"))))
    ∧ (∀ d : ℚ, x_api_key = rdr.api_key → inp.fare_estimate = none →
        inp.distance_km = some d →
        request_ride st inp x_api_key nowHour newId =
          ({ st with rides := (newId, { rider_id := inp.rider_id, driver_id := inp.driver_id, pickup := inp.pickup, dropoff := inp.dropoff, distance_km := some d, duration_min := inp.duration_min, fare_estimate := some (estimate_fare nowHour d inp.duration_min none).1, surge_multiplier := some (estimate_fare nowHour d inp.duration_min none).2, status := inp.status.getD ("requested"), updated_at := none }) :: st.rides },
            .ok newId)) := by
  constructor
  · intro hx
    simp [request_ride, hr, Ne.symm hx]
  · intro d hx hfe hdk
    subst hx
    simp [request_ride, hr, hfe, hdk]

/-- C7 witness: rider r1 creates a ride on stA with distance 3 and no fare;
the operation succeeds and the stored ride carries the computed fare and
surge at the current hour 12 and status "requested". -/
theorem C7_witness :
    request_ride stA cRideInputDist (some ("rk")) 12 ("R2") =
      ({ stA with rides := (("R2"), { rider_id := "r1", driver_id := none, pickup := { lat := 0, lng := 0 }, dropoff := { lat := 1, lng := 1 }, distance_km := some 3, duration_min := none, fare_estimate := some (estimate_fare 12 3 none none).1, surge_multiplier := some (estimate_fare 12 3 none none).2, status := "requested", updated_at := none }) :: stA.rides },
        .ok ("R2")) := by
  have h := (C7_create stA cRideInputDist (some ("rk")) 12 ("R2") cRider rfl).2
    3 rfl rfl rfl
  simpa [cRideInputDist] using h

/-- Claim C8: the nearby-drivers query returns only drivers drawn from the
store whose stored location lies inside the bounding box
lat plus-or-minus radius/110.574, lng plus-or-minus radius/111.320 and whose
availability flag is true, and returns at most 50 of them; in particular any
candidate outside the box, or without a true availability flag (even at the
center), is excluded. -/
theorem C8_nearby (st : Store) (lat lng radius_km : ℚ) :
    (nearby_drivers st lat lng radius_km).length ≤ 50
    ∧ ∀ d ∈ nearby_drivers st lat lng radius_km,
        d ∈ st.drivers.map Prod.snd ∧ d.is_available = true ∧
        ∃ p, d.location = some p ∧
          lat - radius_km / kmPerDegLat ≤ p.lat ∧ p.lat ≤ lat + radius_km / kmPerDegLat ∧
          lng - radius_km / kmPerDegLng ≤ p.lng ∧ p.lng ≤ lng + radius_km / kmPerDegLng := by
  constructor
  · unfold nearby_drivers
    exact List.length_take_le 50 _
  · intro d hd
    have hsub := List.take_subset 50
      ((st.drivers.map Prod.snd).filter (inNearbyQuery lat lng radius_km)) hd
    rw [List.mem_filter] at hsub
    obtain ⟨hmem, hq⟩ := hsub
    rcases hl : d.location with _ | p
    · simp [inNearbyQuery, hl] at hq
    · simp only [inNearbyQuery, hl, Bool.and_eq_true, decide_eq_true_eq] at hq
      obtain ⟨⟨⟨⟨h1, h2⟩, h3⟩, h4⟩, h5⟩ := hq
      exact ⟨hmem, h5, p, rfl, h1, h2, h3, h4⟩

/-- C8 witness: the keyless driver of stNoKey sits at the center (0,0) with
availability true, so it is returned by the query and the claimed properties
hold of it. -/
theorem C8_witness :
    nkDriver.is_available = true ∧ nkDriver ∈ stNoKey.drivers.map Prod.snd := by
  have hmem : nkDriver ∈ nearby_drivers stNoKey 0 0 5 := by
    norm_num [nearby_drivers, stNoKey, nkDriver, inNearbyQuery, kmPerDegLat,
      kmPerDegLng, List.filter, List.take]
  have h := (C8_nearby stNoKey 0 0 5).2 nkDriver hmem
  exact ⟨h.2.1, h.1⟩

/-- Claim C10: every credential gate decides by plain equality between the
api_key of the stored document and the presented X-API-Key header.  The first two
conjuncts characterize the driver-location and ride-creation gates as exactly
that equality test; the remaining conjuncts show the consequence concretely on
stNoKey, whose rider and driver documents carry no api_key value: with no
header presented, creation, driver assignment, status progression,
cancellation, the rider arm, and the driver-location update all pass
authorization. -/
theorem C10_plain_equality :
    (∀ (st : Store) (did : String) (loc : GeoPoint) (x : Option String) (now : Nat) (drv : DriverDoc),
      st.drivers.lookup did = some drv →
      ((update_driver_location st did loc x now).2 = .error (.unauthorized ("Invalid API key")) ↔ drv.api_key ≠ x))
    ∧ (∀ (st : Store) (inp : RideInput) (x : Option String) (nowHour : ℤ) (newId : String) (rdr : RiderDoc),
      st.riders.lookup inp.rider_id = some rdr →
      ((request_ride st inp x nowHour newId).2 = .error (.unauthorized ("Invalid API key")) ↔ rdr.api_key ≠ x))
    ∧ (update_driver_location stNoKey ("d1") { lat := 2, lng := 3 } none 5).2 = .ok true
    ∧ (request_ride stNoKey nkRideInput none 12 ("R9")).2 = .ok ("R9")
    ∧ (update_ride stNoKey ("R1") { status := none, driver_id := some ("d1") } none 4).2 = .ok true
    ∧ (update_ride stNoKey ("R1") { status := some ("ongoing"), driver_id := none } none 5).2 = .ok true
    ∧ (update_ride stNoKey ("R1") { status := some ("cancelled"), driver_id := none } none 6).2 = .ok true
    ∧ (update_ride stNoKey ("R0") { status := some ("ongoing"), driver_id := none } none 7).2 = .ok true := by
  refine ⟨?_, ?_, rfl, rfl, rfl, rfl, rfl, rfl⟩
  · intro st did loc x now drv hl
    by_cases hk : drv.api_key = x <;> simp [update_driver_location, hl, hk]
  · intro st inp x nowHour newId rdr hl
    by_cases hk : rdr.api_key = x <;> simp [request_ride, hl, hk]

/-- C10 witness: the driver-location gate at a concrete mismatched credential
is exactly the plain-equality failure. -/
theorem C10_witness :
    (update_driver_location stA ("d1") { lat := 2, lng := 3 } (some ("zz")) 5).2 =
      .error (.unauthorized ("Invalid API key")) :=
  (C10_plain_equality.1 stA ("d1") { lat := 2, lng := 3 } (some ("zz")) 5
    cDriver rfl).mpr (by decide)

end Payana
